import Mathlib

/-!
Verification of the interrupt-emulation subsystem `platform/linux/intr.c` of
microps. The subsystem maps signal numbers onto logical interrupt identifiers:
a registry of handler entries (`irqs`, a singly linked list), a signal set
(`sigmask`) the dispatch thread waits on, a dispatch loop (`intr_thread`)
driven by `sigwait`, a raise API (`intr_raise_irq` via `pthread_kill`) and a
lifecycle (`intr_init` / `intr_run` / `intr_shutdown`).

Modelling conventions:
- thread identifiers are `Nat` (pthread_t is opaque; only equality is used);
- handler function pointers and `void *dev` contexts are opaque `Nat` tokens;
  handler return values are supplied by an environment `hret : Nat → Nat → Nat → Int`
  mapping (handler, irq, dev) to the returned int, so that theorems can state
  that the loop ignores them;
- effectful calls (handler invocations, the barrier wait, timer arming) are
  recorded as events in a trace;
- fallible external primitives (`memory_alloc`, `pthread_sigmask`,
  `pthread_create`, `timer_create`, `timer_settime`, `pthread_kill`) are given
  their success/failure outcome as an explicit parameter, and the embedding
  routes that outcome exactly as the C control flow does.
-/

namespace Intr

/-- Linux signal number for SIGHUP (the Terminate identifier); from
`<signal.h>`, outside the repository. -/
def SIGHUP : Nat := 1

/-- Linux signal number for SIGUSR1 (the SoftIrq identifier); from
`<signal.h>`, outside the repository. -/
def SIGUSR1 : Nat := 10

/-- Linux signal number for SIGALRM (the TimerTick identifier); from
`<signal.h>`, outside the repository. -/
def SIGALRM : Nat := 14

/-- Modelled from the spec: the SHARED flag constant comes from `platform.h`,
which is not among the provided sources; the spec gives the flag domain
\x7bEXCLUSIVE, SHARED\x7d, so SHARED is modelled as the nonzero flag value 1
(microps convention `INTR_IRQ_SHARED`). The conflict check in `intr.c`
compares `flags` to this constant with xor, so only the distinctness of the
two domain values matters. -/
def INTR_IRQ_SHARED : Nat := 1

/-- `struct irq_entry` from intr.c (the `next` pointer is represented by the
position in the `List` holding the entries). -/
structure irq_entry where
  irq : Nat
  handler : Nat
  flags : Nat
  name : String
  dev : Nat
deriving DecidableEq, Repr

/-- The file-scope mutable state of intr.c: the registry list `irqs`, the
signal set `sigmask`, and the thread id `tid`. -/
structure IntrState where
  irqs : List irq_entry
  sigmask : Finset Nat
  tid : Nat
deriving DecidableEq

/-- The conflict test performed for one registry entry inside the `for` loop
of `intr_request_irq`: the entry matches the requested irq and
`entry->flags ^ INTR_IRQ_SHARED || flags ^ INTR_IRQ_SHARED` is nonzero. -/
def conflict_with (irq flags : Nat) (entry : irq_entry) : Bool :=
  entry.irq == irq &&
    (entry.flags ^^^ INTR_IRQ_SHARED != 0 || flags ^^^ INTR_IRQ_SHARED != 0)

/-- `intr_request_irq` from intr.c. `allocOk` is the outcome of the external
`memory_alloc` call. Returns the C return status and the new file-scope
state. On success the entry is linked at the head of `irqs`
(`entry->next = irqs; irqs = entry;`), the name is truncated to 15 bytes
(`strncpy(entry->name, name, sizeof(entry->name) - 1)`), and the irq is added
to `sigmask` (`sigaddset(&sigmask, irq)`). -/
def intr_request_irq (st : IntrState) (allocOk : Bool) (irq handler flags : Nat)
    (name : String) (dev : Nat) : Int × IntrState :=
  if st.irqs.any (conflict_with irq flags) then
    (-1, st)
  else if allocOk = false then
    (-1, st)
  else
    (0, { st with
          irqs := ⟨irq, handler, flags, name.take 15, dev⟩ :: st.irqs,
          sigmask := insert irq st.sigmask })

/-- The pending-notification model for `pthread_kill(tid, sig)`: `status` is
the outcome of the OS delivery operation (0 on success, an errno otherwise);
on success the pair (target thread, signal) is queued for the target thread
only. `pend` is the process-wide queue of (thread, signal) pending pairs. -/
def pthread_kill_model (status : Int) (pend : List (Nat × Nat)) (target sig : Nat) :
    Int × List (Nat × Nat) :=
  if status = 0 then (0, pend ++ [(target, sig)]) else (status, pend)

/-- `intr_raise_irq` from intr.c: `return pthread_kill(tid, (int)irq);`. -/
def intr_raise_irq (st : IntrState) (status : Int) (pend : List (Nat × Nat))
    (irq : Nat) : Int × List (Nat × Nat) :=
  pthread_kill_model status pend st.tid irq

/-- `intr_timer_setup` from intr.c: returns -1 if `timer_create` fails,
-1 if `timer_settime` fails, else 0; `createOk` and `setOk` are the outcomes
of those two external calls. -/
def intr_timer_setup (createOk setOk : Bool) : Int :=
  if createOk = false then -1
  else if setOk = false then -1
  else 0

/-- Events recorded by the dispatch thread `intr_thread`. -/
inductive ThreadEvent where
  | barrierWait
  | timerArmed
  | timerArmFailed
  | callTimerHandler
  | callSoftirqHandler
  | callIrqHandler (irq handler dev : Nat) (ret : Int)
  | sigwaitError
  | terminated
deriving DecidableEq, Repr

/-- One outcome of a `sigwait(&sigmask, &sig)` call: either a signal number,
or a nonzero error return. -/
inductive SigwaitResult where
  | ok (sig : Nat)
  | err
deriving DecidableEq, Repr

/-- The handler invocations performed by the `default:` branch of the switch
in `intr_thread`: walk `irqs` from the head and call `entry->handler(entry->irq,
entry->dev)` for every entry with `entry->irq == sig`. `hret` supplies
each handler's return value (which the C code discards). -/
def handler_calls (hret : Nat → Nat → Nat → Int) (irqs : List irq_entry)
    (sig : Nat) : List ThreadEvent :=
  (irqs.filter fun e => e.irq == sig).map
    fun e => .callIrqHandler e.irq e.handler e.dev (hret e.handler e.irq e.dev)

/-- The `switch (sig)` statement of one loop iteration in `intr_thread`:
returns the events of the iteration and whether `terminate` was set. -/
def dispatch_signal (hret : Nat → Nat → Nat → Int) (irqs : List irq_entry)
    (sig : Nat) : List ThreadEvent × Bool :=
  if sig = SIGHUP then ([], true)
  else if sig = SIGALRM then ([.callTimerHandler], false)
  else if sig = SIGUSR1 then ([.callSoftirqHandler], false)
  else (handler_calls hret irqs sig, false)

/-- The `while (!terminate)` loop of `intr_thread`, driven by the finite
sequence of `sigwait` outcomes it observes. An error return from `sigwait`
logs and breaks out of the loop; setting `terminate` exits the loop; in both
cases control reaches the trailing `debugf("terminated")` and the thread
returns (event `terminated`). An exhausted input list means the loop is still
blocked in `sigwait`. -/
def intr_loop (hret : Nat → Nat → Nat → Int) (irqs : List irq_entry) :
    List SigwaitResult → List ThreadEvent
  | [] => []
  | .err :: _ => [.sigwaitError, .terminated]
  | .ok sig :: rest =>
    let step := dispatch_signal hret irqs sig
    if step.2 then step.1 ++ [.terminated]
    else step.1 ++ intr_loop hret irqs rest

/-- `intr_thread` from intr.c: waits on the barrier (the rendezvous with
`intr_run`), then arms the periodic timer via `intr_timer_setup`; if arming
fails it logs and returns without entering the loop, otherwise it runs the
dispatch loop. -/
def intr_thread (hret : Nat → Nat → Nat → Int) (createOk setOk : Bool)
    (irqs : List irq_entry) (input : List SigwaitResult) : List ThreadEvent :=
  .barrierWait ::
    (if intr_timer_setup createOk setOk = -1 then [.timerArmFailed]
     else .timerArmed :: intr_loop hret irqs input)

/-- Events recorded by `intr_run`. -/
inductive RunEvent where
  | sigmaskBlocked
  | sigmaskFailed
  | threadCreated
  | createFailed
  | barrierWait
deriving DecidableEq, Repr

/-- `intr_run` from intr.c: blocks `sigmask` in the calling thread
(`pthread_sigmask(SIG_BLOCK, ...)`, outcome `maskOk`), returning -1 on
failure; creates the dispatch thread (outcome `createOk`), returning -1 on
failure; then waits on the barrier (the rendezvous) and returns 0. -/
def intr_run (maskOk createOk : Bool) : Int × List RunEvent :=
  if maskOk = false then (-1, [.sigmaskFailed])
  else if createOk = false then (-1, [.sigmaskBlocked, .createFailed])
  else (0, [.sigmaskBlocked, .threadCreated, .barrierWait])

/-- Events recorded by `intr_shutdown`. -/
inductive ShutdownEvent where
  | killSignal (target sig : Nat)
  | joinThread (target : Nat)
deriving DecidableEq, Repr

/-- `intr_shutdown` from intr.c: if `pthread_equal(tid, pthread_self())` is
nonzero (the stored thread id equals the calling thread's id) the thread was
never created and the call is a no-op; otherwise it sends SIGHUP to `tid`
and joins that thread (the join event, last in the trace, is where the call
blocks until the dispatch thread exits). `self` is the calling thread. -/
def intr_shutdown (st : IntrState) (self : Nat) : List ShutdownEvent :=
  if st.tid = self then []
  else [.killSignal st.tid SIGHUP, .joinThread st.tid]

/-- The three reserved signal numbers seeded into `sigmask` by `intr_init`. -/
def reservedSet : Finset Nat := {SIGHUP, SIGUSR1, SIGALRM}

/-- `intr_init` from intr.c: stores the calling (initializing) thread's own
id in `tid`, and seeds `sigmask` with exactly SIGHUP, SIGUSR1, SIGALRM
(after `sigemptyset`). The barrier initialization has no observable state in
this model. -/
def intr_init (self : Nat) : IntrState :=
  { irqs := [], sigmask := reservedSet, tid := self }

/-- One registration request: the `memory_alloc` outcome and the four
arguments of `intr_request_irq`. -/
structure Request where
  allocOk : Bool
  irq : Nat
  handler : Nat
  flags : Nat
  name : String
  dev : Nat
deriving DecidableEq, Repr

/-- Apply a sequence of registration requests to a state, keeping only the
state (return statuses discarded). -/
def apply_requests (st : IntrState) : List Request → IntrState
  | [] => st
  | r :: rs =>
    apply_requests (intr_request_irq st r.allocOk r.irq r.handler r.flags r.name r.dev).2 rs

/-- The finite set of irq identifiers of the entries of a registry list. -/
def irq_ids : List irq_entry → Finset Nat
  | [] => ∅
  | e :: rest => insert e.irq (irq_ids rest)

/-- Erase the (discarded) handler return value from an event, for stating
that the loop's behaviour does not depend on handler return values. -/
def strip_ret : ThreadEvent → ThreadEvent
  | .callIrqHandler i h d _ => .callIrqHandler i h d 0
  | e => e

lemma strip_ret_handler_calls (hret hret2 : Nat → Nat → Nat → Int)
    (irqs : List irq_entry) (sig : Nat) :
    (handler_calls hret irqs sig).map strip_ret
      = (handler_calls hret2 irqs sig).map strip_ret := by
  simp [handler_calls, List.map_map, Function.comp_def, strip_ret]

lemma intr_loop_strip_ret (hret hret2 : Nat → Nat → Nat → Int)
    (irqs : List irq_entry) (input : List SigwaitResult) :
    (intr_loop hret irqs input).map strip_ret
      = (intr_loop hret2 irqs input).map strip_ret := by
  induction input with
  | nil => rfl
  | cons r rest ih =>
    cases r with
    | err => rfl
    | ok sig =>
      simp only [intr_loop, dispatch_signal]
      split_ifs <;>
        simp [List.map_append, ih, strip_ret_handler_calls hret hret2 irqs sig]

/-- C1: each loop iteration of `intr_thread` processes exactly the one
notification returned by `sigwait` and classifies it: SIGHUP (Terminate)
ends the loop and the thread terminates; SIGALRM (TimerTick) calls
`net_timer_handler` and the loop continues with the remaining input; SIGUSR1
(SoftIrq) calls `net_softirq_handler` and continues; any other signal invokes
the handler of every registry entry whose irq equals it and continues.
Handler return values do not alter the loop's behaviour: the trace, up to the
recorded (discarded) return values, is independent of the handler return
environment. -/
theorem dispatch_loop_classification (hret : Nat → Nat → Nat → Int)
    (irqs : List irq_entry) (sig : Nat) (rest : List SigwaitResult) :
    (intr_loop hret irqs (.ok sig :: rest) =
      if sig = SIGHUP then [.terminated]
      else if sig = SIGALRM then .callTimerHandler :: intr_loop hret irqs rest
      else if sig = SIGUSR1 then .callSoftirqHandler :: intr_loop hret irqs rest
      else ((irqs.filter fun e => e.irq == sig).map
          fun e => .callIrqHandler e.irq e.handler e.dev (hret e.handler e.irq e.dev))
        ++ intr_loop hret irqs rest)
    ∧ ∀ hret2, (intr_loop hret irqs (.ok sig :: rest)).map strip_ret
        = (intr_loop hret2 irqs (.ok sig :: rest)).map strip_ret := by
  constructor
  · by_cases h1 : sig = SIGHUP
    · simp [intr_loop, dispatch_signal, h1, SIGHUP]
    · by_cases h2 : sig = SIGALRM
      · simp [intr_loop, dispatch_signal, h1, h2, SIGHUP, SIGALRM]
      · by_cases h3 : sig = SIGUSR1
        · simp [intr_loop, dispatch_signal, h1, h2, h3, SIGHUP, SIGALRM, SIGUSR1]
        · simp [intr_loop, dispatch_signal, handler_calls, h1, h2, h3]
  · intro hret2
    exact intr_loop_strip_ret hret hret2 irqs (.ok sig :: rest)

/-- C9: `intr_raise_irq` forwards to `pthread_kill(tid, irq)`: it returns the
status of the delivery operation, and on success the synthesized pending
notification is queued for the thread named by the stored handle `st.tid`
exclusively (the process-wide pending queue grows by exactly the one pair
targeting `st.tid`); on failure nothing is queued. -/
theorem raise_targets_dispatch_thread (st : IntrState) (status : Int)
    (pend : List (Nat × Nat)) (irq : Nat) :
    intr_raise_irq st status pend irq =
      (status, if status = 0 then pend ++ [(st.tid, irq)] else pend) := by
  unfold intr_raise_irq pthread_kill_model
  split_ifs with h <;> simp [h]

/-- C10: whenever `intr_request_irq` returns the failure status -1 (conflict
with an existing entry, or `memory_alloc` failure), the whole file-scope
state — registry list and signal set — is returned unchanged. -/
theorem request_irq_failure_preserves_state (st : IntrState) (allocOk : Bool)
    (irq handler flags : Nat) (name : String) (dev : Nat)
    (hfail : (intr_request_irq st allocOk irq handler flags name dev).1 = -1) :
    (intr_request_irq st allocOk irq handler flags name dev).2 = st := by
  unfold intr_request_irq at hfail ⊢
  split_ifs at hfail ⊢ <;> simp_all

/-- C10 witness: a concrete conflicting second registration (irq 2 registered
exclusively, then requested again) returns -1 and leaves the state intact. -/
theorem request_irq_failure_preserves_state_witness :
    (intr_request_irq (intr_request_irq (intr_init 0) true 2 7 0 "a" 1).2
        true 2 9 0 "c" 3).2
      = (intr_request_irq (intr_init 0) true 2 7 0 "a" 1).2 :=
  request_irq_failure_preserves_state _ true 2 9 0 "c" 3 (by decide)

/-- C5: `intr_shutdown` is a no-op when the dispatch thread was never
started, which it decides by comparing the stored thread id — set by
`intr_init` to the initializing thread's own id — with the calling thread's
id; otherwise it sends SIGHUP (Terminate) to the stored thread id and then
joins that thread, the join (last event) blocking until the thread exits. -/
theorem shutdown_behavior (self caller : Nat) (st : IntrState)
    (hne : st.tid ≠ caller) :
    intr_shutdown (intr_init self) self = []
    ∧ intr_shutdown st caller
        = [.killSignal st.tid SIGHUP, .joinThread st.tid] := by
  constructor
  · simp [intr_shutdown, intr_init]
  · simp [intr_shutdown, hne]

/-- C5 witness: shutdown right after init by the initializing thread (id 0)
is a no-op; shutdown by thread 0 when the stored id is 3 kills and joins
thread 3. -/
theorem shutdown_behavior_witness :
    intr_shutdown (intr_init 0) 0 = []
    ∧ intr_shutdown ⟨[], ∅, 3⟩ 0
        = [.killSignal 3 SIGHUP, .joinThread 3] :=
  shutdown_behavior 0 0 ⟨[], ∅, 3⟩ (by decide)

/-- C6: `intr_run` returns -1 if the `pthread_sigmask` call fails, returns
-1 if `pthread_create` fails, and returns 0 exactly when both succeed — in
which case the last thing it does before returning is the barrier wait, so
success is returned only after the two-party rendezvous with the dispatch
thread completes. -/
theorem run_behavior (maskOk createOk : Bool) :
    (maskOk = false → intr_run maskOk createOk = (-1, [.sigmaskFailed]))
    ∧ (maskOk = true → createOk = false →
        intr_run maskOk createOk = (-1, [.sigmaskBlocked, .createFailed]))
    ∧ ((intr_run maskOk createOk).1 = 0 ↔ maskOk = true ∧ createOk = true)
    ∧ ((intr_run maskOk createOk).1 = 0 →
        (intr_run maskOk createOk).2.getLast? = some .barrierWait) := by
  cases maskOk <;> cases createOk <;> simp [intr_run]

/-- C6 witness: instantiation at concrete outcomes — mask failure yields -1,
create failure yields -1, and full success yields 0 with the rendezvous as
the final event. -/
theorem run_behavior_witness :
    intr_run false true = (-1, [.sigmaskFailed])
    ∧ intr_run true false = (-1, [.sigmaskBlocked, .createFailed])
    ∧ ((intr_run true true).1 = 0 ↔ true = true ∧ true = true)
    ∧ (intr_run true true).2.getLast? = some .barrierWait :=
  ⟨(run_behavior false true).1 rfl,
   (run_behavior true false).2.1 rfl rfl,
   (run_behavior true true).2.2.1,
   (run_behavior true true).2.2.2 rfl⟩

/-- C7: if arming the periodic timer fails (`intr_timer_setup` returns -1),
the dispatch thread's whole trace is the barrier wait followed by the logged
arming failure: it never enters the wait/dispatch loop and returns normally
(no process crash in the model — `intr_thread` still yields a trace). The
rendezvous precedes the arming attempt, and `intr_run` with both of its own
operations succeeding has already returned status 0 to its caller. -/
theorem timer_arm_failure_behavior (hret : Nat → Nat → Nat → Int)
    (createOk setOk : Bool) (irqs : List irq_entry)
    (input : List SigwaitResult)
    (hfail : intr_timer_setup createOk setOk = -1) :
    intr_thread hret createOk setOk irqs input = [.barrierWait, .timerArmFailed]
    ∧ (intr_run true true).1 = 0 := by
  constructor
  · simp [intr_thread, hfail]
  · rfl

/-- C7 witness: with `timer_create` failing and a pending SIGALRM in the
input, the thread trace is exactly barrier wait then arm failure, and the
successful run returned 0. -/
theorem timer_arm_failure_behavior_witness :
    intr_thread (fun _ _ _ => 0) false true [] [.ok SIGALRM]
        = [.barrierWait, .timerArmFailed]
    ∧ (intr_run true true).1 = 0 :=
  timer_arm_failure_behavior (fun _ _ _ => 0) false true [] [.ok SIGALRM] (by decide)

lemma conflict_with_iff (irq flags : Nat) (e : irq_entry) :
    conflict_with irq flags e = true ↔
      e.irq = irq ∧ (e.flags ≠ INTR_IRQ_SHARED ∨ flags ≠ INTR_IRQ_SHARED) := by
  simp [conflict_with, Nat.xor_ne_zero]

lemma any_conflict_eq_false (irqs : List irq_entry) (irq flags : Nat)
    (h : ∀ e ∈ irqs, e.irq = irq →
      (e.flags = INTR_IRQ_SHARED ∧ flags = INTR_IRQ_SHARED)) :
    irqs.any (conflict_with irq flags) = false := by
  rw [List.any_eq_false]
  intro e he
  rw [Bool.not_eq_true, Bool.eq_false_iff, Ne, conflict_with_iff]
  rintro ⟨hirq, hconf⟩
  rcases hconf with hc | hc
  · exact hc (h e he hirq).1
  · exact hc (h e he hirq).2

lemma request_irq_success (st : IntrState) (irq handler flags : Nat)
    (name : String) (dev : Nat)
    (hno : st.irqs.any (conflict_with irq flags) = false) :
    intr_request_irq st true irq handler flags name dev
      = (0, { st with
              irqs := ⟨irq, handler, flags, name.take 15, dev⟩ :: st.irqs,
              sigmask := insert irq st.sigmask }) := by
  simp [intr_request_irq, hno]

/-- C2: when an entry for `irq` is already registered, a second registration
for the same `irq` fails with the conflict error -1 if the existing entry or
the new request lacks the SHARED flag, and leaves the state unchanged; it
succeeds — returning 0 and linking a second entry at the head, extending the
signal set — when every existing entry for that irq and the new request all
carry SHARED (and the allocation succeeds). -/
theorem request_irq_shared_conflict (st : IntrState) (allocOk : Bool)
    (irq handler flags : Nat) (name : String) (dev : Nat)
    (e : irq_entry) (he : e ∈ st.irqs) (heirq : e.irq = irq) :
    ((e.flags ≠ INTR_IRQ_SHARED ∨ flags ≠ INTR_IRQ_SHARED) →
      intr_request_irq st allocOk irq handler flags name dev = (-1, st))
    ∧ ((∀ e2 ∈ st.irqs, e2.irq = irq → e2.flags = INTR_IRQ_SHARED) →
        flags = INTR_IRQ_SHARED → allocOk = true →
        intr_request_irq st allocOk irq handler flags name dev
          = (0, { st with
                  irqs := ⟨irq, handler, flags, name.take 15, dev⟩ :: st.irqs,
                  sigmask := insert irq st.sigmask })) := by
  constructor
  · intro hlack
    have hany : st.irqs.any (conflict_with irq flags) = true :=
      List.any_eq_true.mpr ⟨e, he, (conflict_with_iff irq flags e).mpr ⟨heirq, hlack⟩⟩
    simp [intr_request_irq, hany]
  · intro hall hsh halloc
    subst halloc
    exact request_irq_success st irq handler flags name dev
      (any_conflict_eq_false st.irqs irq flags fun e2 he2 hirq2 => ⟨hall e2 he2 hirq2, hsh⟩)

/-- C2 witness: with irq 2 registered SHARED, a second EXCLUSIVE request
fails with -1 leaving the state unchanged, while a second SHARED request
succeeds and links the new entry at the head. -/
theorem request_irq_shared_conflict_witness :
    (intr_request_irq (intr_request_irq (intr_init 0) true 2 7 1 "a" 1).2
        true 2 9 0 "c" 3).1 = -1
    ∧ (intr_request_irq (intr_request_irq (intr_init 0) true 2 7 1 "a" 1).2
        true 2 8 1 "b" 2).1 = 0 := by
  constructor
  · have h := (request_irq_shared_conflict
      (intr_request_irq (intr_init 0) true 2 7 1 "a" 1).2 true 2 9 0 "c" 3
      ⟨2, 7, 1, "a", 1⟩ (by decide) rfl).1 (Or.inr (by decide))
    rw [h]
  · have h := (request_irq_shared_conflict
      (intr_request_irq (intr_init 0) true 2 7 1 "a" 1).2 true 2 8 1 "b" 2
      ⟨2, 7, 1, "a", 1⟩ (by decide) rfl).2 (by decide) rfl rfl
    rw [h]

lemma filter_irq_fresh (irqs : List irq_entry) (irq : Nat)
    (h : ∀ e ∈ irqs, e.irq ≠ irq) :
    irqs.filter (fun e => e.irq == irq) = [] := by
  rw [List.filter_eq_nil_iff]
  intro e he
  simpa using h e he

/-- C3: two successful SHARED registrations for the same non-reserved
identifier coexist, and when that identifier fires the dispatch loop invokes
each of the two handlers exactly once, most-recently-registered first:
registration links the new entry at the head of the singly linked `irqs`
list and the dispatch loop walks the list from the head. -/
theorem shared_entries_mru_order (st : IntrState) (irq h1 h2 d1 d2 : Nat)
    (n1 n2 : String) (hret : Nat → Nat → Nat → Int)
    (hfresh : ∀ e ∈ st.irqs, e.irq ≠ irq)
    (hh : irq ≠ SIGHUP) (ha : irq ≠ SIGALRM) (hu : irq ≠ SIGUSR1) :
    (intr_request_irq st true irq h1 INTR_IRQ_SHARED n1 d1).1 = 0
    ∧ (intr_request_irq (intr_request_irq st true irq h1 INTR_IRQ_SHARED n1 d1).2
        true irq h2 INTR_IRQ_SHARED n2 d2).1 = 0
    ∧ intr_loop hret
        (intr_request_irq (intr_request_irq st true irq h1 INTR_IRQ_SHARED n1 d1).2
          true irq h2 INTR_IRQ_SHARED n2 d2).2.irqs [.ok irq]
      = [.callIrqHandler irq h2 d2 (hret h2 irq d2),
         .callIrqHandler irq h1 d1 (hret h1 irq d1)] := by
  have hany1 : st.irqs.any (conflict_with irq INTR_IRQ_SHARED) = false :=
    any_conflict_eq_false st.irqs irq INTR_IRQ_SHARED
      fun e he hirq => absurd hirq (hfresh e he)
  have e1def := request_irq_success st irq h1 INTR_IRQ_SHARED n1 d1 hany1
  have hany2 : ((⟨irq, h1, INTR_IRQ_SHARED, n1.take 15, d1⟩ : irq_entry)
      :: st.irqs).any (conflict_with irq INTR_IRQ_SHARED) = false := by
    refine any_conflict_eq_false _ irq INTR_IRQ_SHARED ?_
    intro e he hirq
    rcases List.mem_cons.mp he with rfl | he'
    · exact ⟨rfl, rfl⟩
    · exact absurd hirq (hfresh e he')
  rw [e1def]
  have e2def := request_irq_success
    ({ st with
       irqs := ⟨irq, h1, INTR_IRQ_SHARED, n1.take 15, d1⟩ :: st.irqs,
       sigmask := insert irq st.sigmask }) irq h2 INTR_IRQ_SHARED n2 d2 hany2
  rw [e2def]
  refine ⟨rfl, rfl, ?_⟩
  simp [intr_loop, dispatch_signal, handler_calls, hh, ha, hu,
    List.filter_cons, filter_irq_fresh st.irqs irq hfresh]

/-- C3 witness: from the initial state, registering handlers 7 then 8 under
irq 2 (both SHARED) succeeds, and firing irq 2 invokes handler 8 then
handler 7, each once. -/
theorem shared_entries_mru_order_witness :
    (intr_request_irq (intr_init 0) true 2 7 INTR_IRQ_SHARED "a" 1).1 = 0
    ∧ (intr_request_irq (intr_request_irq (intr_init 0) true 2 7 INTR_IRQ_SHARED "a" 1).2
        true 2 8 INTR_IRQ_SHARED "b" 2).1 = 0
    ∧ intr_loop (fun _ _ _ => 0)
        (intr_request_irq (intr_request_irq (intr_init 0) true 2 7 INTR_IRQ_SHARED "a" 1).2
          true 2 8 INTR_IRQ_SHARED "b" 2).2.irqs [.ok 2]
      = [.callIrqHandler 2 8 2 0, .callIrqHandler 2 7 1 0] :=
  shared_entries_mru_order (intr_init 0) 2 7 8 1 2 "a" "b" (fun _ _ _ => 0)
    (by decide) (by decide) (by decide) (by decide)

/-- C4 counterexample: the claim says registering a reserved identifier
fails, but `intr_request_irq` has no reserved-identifier check: registering
SIGHUP (the Terminate identifier) from the initial state returns success 0
and links an entry. -/
theorem request_reserved_succeeds_cex :
    (intr_request_irq (intr_init 0) true SIGHUP 7 INTR_IRQ_SHARED "drv" 5).1 = 0
    ∧ (intr_request_irq (intr_init 0) true SIGHUP 7 INTR_IRQ_SHARED "drv" 5).2.irqs
        ≠ [] := by
  decide

/-- C4 amended: `intr_request_irq` performs no reserved-identifier check: a
driver request for a reserved identifier (SIGHUP/Terminate,
SIGALRM/TimerTick, SIGUSR1/SoftIrq) is not rejected — with no existing entry
for that identifier and a successful allocation it succeeds, linking an
entry and adding the identifier to the signal set. -/
theorem request_reserved_not_rejected (st : IntrState) (irq handler flags : Nat)
    (name : String) (dev : Nat)
    (_hres : irq = SIGHUP ∨ irq = SIGALRM ∨ irq = SIGUSR1)
    (hfresh : ∀ e ∈ st.irqs, e.irq ≠ irq) :
    intr_request_irq st true irq handler flags name dev
      = (0, { st with
              irqs := ⟨irq, handler, flags, name.take 15, dev⟩ :: st.irqs,
              sigmask := insert irq st.sigmask }) :=
  request_irq_success st irq handler flags name dev
    (any_conflict_eq_false st.irqs irq flags
      fun e he hirq => absurd hirq (hfresh e he))

/-- C4 amended witness: registering SIGHUP from the initial state succeeds
with the entry linked. -/
theorem request_reserved_not_rejected_witness :
    intr_request_irq (intr_init 0) true SIGHUP 7 INTR_IRQ_SHARED "drv" 5
      = (0, { intr_init 0 with
              irqs := ⟨SIGHUP, 7, INTR_IRQ_SHARED, "drv".take 15, 5⟩
                :: (intr_init 0).irqs,
              sigmask := insert SIGHUP (intr_init 0).sigmask }) :=
  request_reserved_not_rejected (intr_init 0) SIGHUP 7 INTR_IRQ_SHARED "drv" 5
    (Or.inl rfl) (by decide)

lemma request_preserves_sigmask_inv (st : IntrState) (r : Request)
    (h : st.sigmask = reservedSet ∪ irq_ids st.irqs) :
    (intr_request_irq st r.allocOk r.irq r.handler r.flags r.name r.dev).2.sigmask
      = reservedSet
        ∪ irq_ids (intr_request_irq st r.allocOk r.irq r.handler r.flags
            r.name r.dev).2.irqs := by
  unfold intr_request_irq
  split_ifs <;> simp [irq_ids, h, Finset.union_insert]

lemma apply_requests_sigmask_inv (rs : List Request) (st : IntrState)
    (h : st.sigmask = reservedSet ∪ irq_ids st.irqs) :
    (apply_requests st rs).sigmask
      = reservedSet ∪ irq_ids (apply_requests st rs).irqs := by
  induction rs generalizing st with
  | nil => exact h
  | cons r rs ih =>
    simp only [apply_requests]
    exact ih _ (request_preserves_sigmask_inv st r h)

/-- C8: after `intr_init` and any sequence of registration requests (each
with its own allocation outcome), the signal set is exactly the union of the
three reserved identifiers SIGHUP (Terminate), SIGUSR1 (SoftIrq), SIGALRM
(TimerTick) — which `intr_init` seeds — and the identifiers of the
successfully registered entries: each successful registration adds exactly
its own irq, and failed ones add nothing. -/
theorem sigmask_reserved_union_registered (self : Nat) (rs : List Request) :
    (apply_requests (intr_init self) rs).sigmask
      = reservedSet ∪ irq_ids (apply_requests (intr_init self) rs).irqs :=
  apply_requests_sigmask_inv rs (intr_init self) (by simp [intr_init, irq_ids])

end Intr
